import Mathlib

/-!
Verification of the yield-aggregation core (`calculate_dex_stats` and its
helpers from `tokemak/src/lib.rs`) against its design specification.

Modelling conventions:
* `u64` and `usize` values are `ℕ`; the only machine-arithmetic effects that
  matter for the claims are panics, which are modelled explicitly:
  `natSub` models checked `u64` subtraction (underflow panics with an
  arithmetic-overflow error; with release-mode wrapping semantics the
  subtraction likewise raises no contract error), `natDiv` models `u64` `/`
  (division by zero panics), and `natMod` models `usize` `%` (remainder by
  zero panics).
* `U256` backing values are `ℕ` (the inputs in scope are far below `2^256`).
* `f64` arithmetic is modelled by exact rational arithmetic (`ℚ`).  The spec
  states the core "is not designed to be bit-exact"; every numeric claim
  below either carries an explicit tolerance or only concerns which error, if
  any, is raised.  Lean's `q / 0 = 0` convention stands in where Rust `f64`
  division by zero would produce `NaN`/`∞`; wherever that matters the
  zero-divisor situation itself is what is being proved.
* Each Rust `assert!`/panic becomes a distinct `RtError` constructor; the
  function is embedded as `Except RtError DexStatsOutput`.
-/

/-- One on-chain observation, from `struct DexStatsInput`:
`timestamp: u64`, `block_number: u64`, `lst_backing: U256`. -/
structure DexStatsInput where
  timestamp : ℕ
  block_number : ℕ
  lst_backing : ℕ
deriving DecidableEq

/-- Result record, from `struct DexStatsOutput { base_yield: f64 }`. -/
structure DexStatsOutput where
  base_yield : ℚ
deriving DecidableEq

/-- The ways `calculate_dex_stats` can halt instead of returning.
The first four are the `assert!` messages, verbatim from the source:
`inputDataNotLongEnough` = "input data not long enough",
`listNotSorted` = "list not sorted",
`dataNotAtCorrectGranularity` = "provided data not at correct granularity",
`resampledDataInsufficient` = "resampled data insufficient".
The last three are arithmetic panics: remainder by zero (`index % skip` with
`skip = 0`), integer division by zero (the annualizer), and `u64`
subtraction overflow (the timestamp delta). -/
inductive RtError where
  | inputDataNotLongEnough
  | listNotSorted
  | dataNotAtCorrectGranularity
  | resampledDataInsufficient
  | remByZero
  | divByZero
  | subOverflow
deriving DecidableEq

deriving instance DecidableEq for Except

/-- Constant `DAY_IN_SECONDS: u64 = 24 * 60 * 60`. -/
def DAY_IN_SECONDS : ℕ := 24 * 60 * 60

/-- Constant `BLOCK_GRANULARITY: u64 = DAY_IN_SECONDS / 12`. -/
def BLOCK_GRANULARITY : ℕ := DAY_IN_SECONDS / 12

/-- Helper `u256_to_f64(value, units)`: the Rust code formats `value` with
`units` decimal places and parses the string back as `f64`; in the exact
rational model this is division by `10 ^ units`. -/
def u256_to_f64 (value : ℕ) (units : ℕ) : ℚ := (value : ℚ) / 10 ^ units

/-- The validation loop of `calculate_dex_stats`: for each element (after the
first) paired with its predecessor, assert `item.block_number >
prior_block_number` ("list not sorted"), then assert the block delta equals
`BLOCK_GRANULARITY` ("provided data not at correct granularity"). -/
def validatePairs : DexStatsInput → List DexStatsInput → Except RtError Unit
  | _, [] => Except.ok ()
  | prior, item :: rest =>
    if item.block_number > prior.block_number then
      if item.block_number - prior.block_number = BLOCK_GRANULARITY then
        validatePairs item rest
      else Except.error RtError.dataNotAtCorrectGranularity
    else Except.error RtError.listNotSorted

/-- Rust `usize` remainder `a % b`: panics when `b = 0`. -/
def natMod (a b : ℕ) : Except RtError ℕ :=
  if b = 0 then Except.error RtError.remByZero else Except.ok (a % b)

/-- Rust `u64` subtraction `a - b`: overflow-checked, panics when `a < b`. -/
def natSub (a b : ℕ) : Except RtError ℕ :=
  if a < b then Except.error RtError.subOverflow else Except.ok (a - b)

/-- Rust `u64` division `a / b`: panics when `b = 0`. -/
def natDiv (a b : ℕ) : Except RtError ℕ :=
  if b = 0 then Except.error RtError.divByZero else Except.ok (a / b)

/-- The resampling loop body, iterating the reversed input with its running
`enumerate` index and keeping the elements whose `index % skip == 0` (in
traversal order, i.e. newest first). -/
def resampleRev (skip : ℕ) : ℕ → List DexStatsInput → Except RtError (List DexStatsInput)
  | _, [] => Except.ok []
  | index, item :: rest =>
    match natMod index skip with
    | Except.error e => Except.error e
    | Except.ok r =>
      match resampleRev skip (index + 1) rest with
      | Except.error e => Except.error e
      | Except.ok tail => Except.ok (if r = 0 then item :: tail else tail)

/-- The resampling step of `calculate_dex_stats`: iterate `input.iter().rev()`
keeping every `skip`-th element, then `resampled.reverse()`. -/
def resample (input : List DexStatsInput) (skip : ℕ) : Except RtError (List DexStatsInput) :=
  match resampleRev skip 0 input.reverse with
  | Except.error e => Except.error e
  | Except.ok r => Except.ok r.reverse

/-- The aggregation loop of `calculate_dex_stats`: starting from the second
resampled element, accumulate
`(current / prior_backing - 1.0) * (((DAY_IN_SECONDS * 365) / time_delta_seconds) as f64)`
threading the prior backing value and prior timestamp. -/
def aggregate : List DexStatsInput → ℚ → ℚ → ℕ → Except RtError ℚ
  | [], total, _, _ => Except.ok total
  | item :: rest, total, prior_backing, prior_timestamp =>
    match natSub item.timestamp prior_timestamp with
    | Except.error e => Except.error e
    | Except.ok time_delta_seconds =>
      match natDiv (DAY_IN_SECONDS * 365) time_delta_seconds with
      | Except.error e => Except.error e
      | Except.ok annualizer_nat =>
        aggregate rest
          (total + (u256_to_f64 item.lst_backing 18 / prior_backing - 1) * (annualizer_nat : ℚ))
          (u256_to_f64 item.lst_backing 18) item.timestamp

/-- The full `calculate_dex_stats(input: &[DexStatsInput], skip: usize)`:
assert non-empty input, validate consecutive block numbers, resample with
stride `skip`, assert the resampled list non-empty, accumulate annualized
growths and divide by `resampled.len() - 1`. -/
def calculate_dex_stats (input : List DexStatsInput) (skip : ℕ) : Except RtError DexStatsOutput :=
  match input with
  | [] => Except.error RtError.inputDataNotLongEnough
  | first :: rest =>
    match validatePairs first rest with
    | Except.error e => Except.error e
    | Except.ok _ =>
      match resample (first :: rest) skip with
      | Except.error e => Except.error e
      | Except.ok [] => Except.error RtError.resampledDataInsufficient
      | Except.ok (rfirst :: rrest) =>
        match aggregate rrest 0 (u256_to_f64 rfirst.lst_backing 18) rfirst.timestamp with
        | Except.error e => Except.error e
        | Except.ok total =>
          Except.ok ⟨total / (((rfirst :: rrest).length - 1 : ℕ) : ℚ)⟩

/-- Pure form of the resampling loop (no panic case), used to relate the
implementation to the specification description. -/
def keepEvery (skip : ℕ) : ℕ → List DexStatsInput → List DexStatsInput
  | _, [] => []
  | index, item :: rest =>
    if index % skip = 0 then item :: keepEvery skip (index + 1) rest
    else keepEvery skip (index + 1) rest

/-- Spec-side description of resampling: iterate the series from newest to
oldest, keep the element at every index that is a multiple of the stride
(index 0 = newest element), then reverse to restore chronological order. -/
def specResample (input : List DexStatsInput) (k : ℕ) : List DexStatsInput :=
  ((input.reverse.enum.filter (fun p => p.1 % k = 0)).map Prod.snd).reverse

/-- Spec-side per-interval annualized growth for a consecutive resampled pair:
`growth = (current_real / prior_real - 1.0) * annualizer` with
`annualizer = (365 * seconds_per_day) / time_delta` where the quotient is the
`u64` floor division the code performs, and the real values are the backing
values divided by `10 ^ 18`. -/
def specGrowth (prior current : DexStatsInput) : ℚ :=
  ((current.lst_backing : ℚ) / 10 ^ 18 / ((prior.lst_backing : ℚ) / 10 ^ 18) - 1)
    * ((365 * DAY_IN_SECONDS / (current.timestamp - prior.timestamp) : ℕ) : ℚ)

/-- Spec-side total growth: sum of `specGrowth` over consecutive pairs of the
resampled series. -/
def specTotal : List DexStatsInput → ℚ
  | [] => 0
  | [_] => 0
  | prior :: current :: rest => specGrowth prior current + specTotal (current :: rest)

/-- Spec-side result: `base_yield = total_growth / (number_of_resampled_elements - 1)`. -/
def specBaseYield (rs : List DexStatsInput) : ℚ :=
  specTotal rs / ((rs.length - 1 : ℕ) : ℚ)

/-- Spec-side growth as the claim literally words it, with an exact (real)
division in the annualizer instead of the `u64` floor division. -/
def specGrowthReal (prior current : DexStatsInput) : ℚ :=
  ((current.lst_backing : ℚ) / 10 ^ 18 / ((prior.lst_backing : ℚ) / 10 ^ 18) - 1)
    * (((365 * DAY_IN_SECONDS : ℕ) : ℚ) / (((current.timestamp - prior.timestamp : ℕ) : ℚ)))

/-- Spec-side total growth with the exact-division annualizer. -/
def specTotalReal : List DexStatsInput → ℚ
  | [] => 0
  | [_] => 0
  | prior :: current :: rest => specGrowthReal prior current + specTotalReal (current :: rest)

/-- Spec-side result with the exact-division annualizer. -/
def specBaseYieldReal (rs : List DexStatsInput) : ℚ :=
  specTotalReal rs / ((rs.length - 1 : ℕ) : ℚ)

/-- The series contains some consecutive pair with non-increasing block
numbers (`current.block_number <= prior.block_number`). -/
def hasNonIncreasingPair : List DexStatsInput → Bool
  | [] => false
  | [_] => false
  | a :: b :: rest =>
    if b.block_number ≤ a.block_number then true else hasNonIncreasingPair (b :: rest)

/-- Scanning consecutive pairs in order, the first check to fail is the
ordering check (so no earlier pair fails the granularity check). -/
def firstViolationIsSort : List DexStatsInput → Bool
  | [] => false
  | [_] => false
  | a :: b :: rest =>
    if b.block_number ≤ a.block_number then true
    else if b.block_number - a.block_number = BLOCK_GRANULARITY then
      firstViolationIsSort (b :: rest)
    else false

/-- All consecutive block numbers strictly increase. -/
def strictlyIncreasing : List DexStatsInput → Bool
  | [] => true
  | [_] => true
  | a :: b :: rest =>
    if a.block_number < b.block_number then strictlyIncreasing (b :: rest) else false

/-- Some consecutive pair's block delta differs from `BLOCK_GRANULARITY`. -/
def hasGranularityViolation : List DexStatsInput → Bool
  | [] => false
  | [_] => false
  | a :: b :: rest =>
    if b.block_number - a.block_number = BLOCK_GRANULARITY then
      hasGranularityViolation (b :: rest)
    else true

/-- Every consecutive pair passes both block-number checks. -/
def blockValidationOk : List DexStatsInput → Bool
  | [] => true
  | [_] => true
  | a :: b :: rest =>
    if a.block_number < b.block_number ∧ b.block_number - a.block_number = BLOCK_GRANULARITY then
      blockValidationOk (b :: rest)
    else false

/-- Two-element series with strictly increasing, exactly-spaced blocks one
day apart in time; used as a concrete valid input. -/
def c2WitnessInput : List DexStatsInput := [⟨0, 0, 10 ^ 18⟩, ⟨86400, 7200, 2 * 10 ^ 18⟩]

/-- Two-element series whose timestamps are 86401 seconds apart, so the
annualizer's `u64` division `31536000 / 86401` floors (to 364). -/
def c2CexInput : List DexStatsInput := [⟨0, 0, 10 ^ 18⟩, ⟨86401, 7200, 2 * 10 ^ 18⟩]

/-- The five daily observations of the concrete aggregation scenario:
backing values `[100.0, 100.01, 100.10, 100.15, 100.25]` scaled by `10^18`,
timestamps one day (86400 s) apart from 1716129570, block numbers spaced at
`BLOCK_GRANULARITY = 7200`. -/
def c3Input : List DexStatsInput :=
  [⟨1716129570, 0, 100000000000000000000⟩,
   ⟨1716215970, 7200, 100010000000000000000⟩,
   ⟨1716302370, 14400, 100100000000000000000⟩,
   ⟨1716388770, 21600, 100150000000000000000⟩,
   ⟨1716475170, 28800, 100250000000000000000⟩]

/-- Two observations with equal block numbers `[100, 100]`. -/
def twoEqualBlocks : List DexStatsInput := [⟨0, 100, 10 ^ 18⟩, ⟨0, 100, 10 ^ 18⟩]

/-- Series whose first consecutive pair violates granularity (delta 1) while a
later pair is non-increasing (blocks `[0, 1, 1]`). -/
def maskedUnsortedInput : List DexStatsInput :=
  [⟨0, 0, 10 ^ 18⟩, ⟨0, 1, 10 ^ 18⟩, ⟨0, 1, 10 ^ 18⟩]

/-- Strictly increasing blocks with off-by-one spacing (7201 instead of 7200). -/
def offByOneInput : List DexStatsInput := [⟨0, 0, 10 ^ 18⟩, ⟨86400, 7201, 10 ^ 18⟩]

/-- Three valid daily observations, for exercising stride 2. -/
def c6WitnessInput : List DexStatsInput :=
  [⟨0, 0, 10 ^ 18⟩, ⟨86400, 7200, 2 * 10 ^ 18⟩, ⟨172800, 14400, 3 * 10 ^ 18⟩]

/-- A single observation (vacuously passes the block-number validation). -/
def singleObservation : List DexStatsInput := [⟨0, 0, 10 ^ 18⟩]

/-- Valid blocks but equal timestamps in the two observations. -/
def equalTimestampsInput : List DexStatsInput := [⟨100, 0, 10 ^ 18⟩, ⟨100, 7200, 10 ^ 18⟩]

/-- Valid blocks but decreasing timestamps in the two observations. -/
def decreasingTimestampsInput : List DexStatsInput := [⟨100, 0, 10 ^ 18⟩, ⟨99, 7200, 10 ^ 18⟩]

theorem validatePairs_ok_of_blockValidationOk :
    ∀ (l : List DexStatsInput) (a : DexStatsInput),
      blockValidationOk (a :: l) = true → validatePairs a l = Except.ok () := by
  intro l
  induction l with
  | nil => intro a _; rfl
  | cons b rest ih =>
    intro a h
    simp only [blockValidationOk] at h
    split at h
    · rename_i hcond
      simp only [validatePairs, gt_iff_lt, if_pos hcond.1, if_pos hcond.2]
      exact ih b h
    · exact absurd h (by simp)

theorem validatePairs_error_of_nonIncreasing :
    ∀ (l : List DexStatsInput) (a : DexStatsInput),
      hasNonIncreasingPair (a :: l) = true →
      validatePairs a l = Except.error RtError.listNotSorted ∨
        validatePairs a l = Except.error RtError.dataNotAtCorrectGranularity := by
  intro l
  induction l with
  | nil => intro a h; simp [hasNonIncreasingPair] at h
  | cons b rest ih =>
    intro a h
    simp only [hasNonIncreasingPair] at h
    by_cases hle : b.block_number ≤ a.block_number
    · left
      simp [validatePairs, not_lt.mpr hle]
    · rw [if_neg hle] at h
      have hlt : a.block_number < b.block_number := not_le.mp hle
      by_cases hg : b.block_number - a.block_number = BLOCK_GRANULARITY
      · have := ih b h
        simpa [validatePairs, hlt, hg] using this
      · right
        simp [validatePairs, hlt, hg]

theorem validatePairs_listNotSorted_of_firstViolation :
    ∀ (l : List DexStatsInput) (a : DexStatsInput),
      firstViolationIsSort (a :: l) = true →
      validatePairs a l = Except.error RtError.listNotSorted := by
  intro l
  induction l with
  | nil => intro a h; simp [firstViolationIsSort] at h
  | cons b rest ih =>
    intro a h
    simp only [firstViolationIsSort] at h
    by_cases hle : b.block_number ≤ a.block_number
    · simp [validatePairs, not_lt.mpr hle]
    · rw [if_neg hle] at h
      have hlt : a.block_number < b.block_number := not_le.mp hle
      by_cases hg : b.block_number - a.block_number = BLOCK_GRANULARITY
      · rw [if_pos hg] at h
        have := ih b h
        simpa [validatePairs, hlt, hg] using this
      · rw [if_neg hg] at h
        exact absurd h (by simp)

theorem validatePairs_granularity_of_violation :
    ∀ (l : List DexStatsInput) (a : DexStatsInput),
      strictlyIncreasing (a :: l) = true → hasGranularityViolation (a :: l) = true →
      validatePairs a l = Except.error RtError.dataNotAtCorrectGranularity := by
  intro l
  induction l with
  | nil => intro a _ hg; simp [hasGranularityViolation] at hg
  | cons b rest ih =>
    intro a hs hg
    simp only [strictlyIncreasing] at hs
    simp only [hasGranularityViolation] at hg
    by_cases hlt : a.block_number < b.block_number
    · rw [if_pos hlt] at hs
      by_cases hd : b.block_number - a.block_number = BLOCK_GRANULARITY
      · rw [if_pos hd] at hg
        have := ih b hs hg
        simpa [validatePairs, hlt, hd] using this
      · simp [validatePairs, hlt, hd]
    · rw [if_neg hlt] at hs
      exact absurd hs (by simp)

theorem calculate_error_of_validate
    (first : DexStatsInput) (rest : List DexStatsInput) (skip : ℕ) (e : RtError)
    (h : validatePairs first rest = Except.error e) :
    calculate_dex_stats (first :: rest) skip = Except.error e := by
  simp [calculate_dex_stats, h]

theorem resampleRev_ok (skip : ℕ) (hk : skip ≠ 0) :
    ∀ (l : List DexStatsInput) (j : ℕ),
      resampleRev skip j l = Except.ok (keepEvery skip j l) := by
  intro l
  induction l with
  | nil => intro j; rfl
  | cons x t ih =>
    intro j
    simp only [resampleRev, natMod, hk, if_false, ih, keepEvery]

theorem enumFrom_filter_map_eq_keepEvery (k : ℕ) :
    ∀ (l : List DexStatsInput) (j : ℕ),
      ((List.enumFrom j l).filter (fun p => p.1 % k = 0)).map Prod.snd = keepEvery k j l := by
  intro l
  induction l with
  | nil => intro j; rfl
  | cons x t ih =>
    intro j
    simp only [List.enumFrom, List.filter, keepEvery]
    by_cases hj : j % k = 0
    · simp [hj, ih]
    · simp [hj, ih]

theorem specResample_eq_keepEvery (input : List DexStatsInput) (k : ℕ) :
    specResample input k = (keepEvery k 0 input.reverse).reverse := by
  simp [specResample, List.enum, enumFrom_filter_map_eq_keepEvery]

theorem resample_eq_specResample (input : List DexStatsInput) (k : ℕ) (hk : k ≠ 0) :
    resample input k = Except.ok (specResample input k) := by
  simp [resample, resampleRev_ok k hk, specResample_eq_keepEvery]

theorem keepEvery_one : ∀ (l : List DexStatsInput) (j : ℕ), keepEvery 1 j l = l := by
  intro l
  induction l with
  | nil => intro j; rfl
  | cons x t ih => intro j; simp [keepEvery, Nat.mod_one, ih]

theorem resampleRev_zero (j : ℕ) (l : List DexStatsInput) (hl : l ≠ []) :
    resampleRev 0 j l = Except.error RtError.remByZero := by
  cases l with
  | nil => exact absurd rfl hl
  | cons x t => simp [resampleRev, natMod]

theorem aggregate_ok_eq :
    ∀ (l : List DexStatsInput) (prior : DexStatsInput) (total q : ℚ),
      aggregate l total (u256_to_f64 prior.lst_backing 18) prior.timestamp = Except.ok q →
      q = total + specTotal (prior :: l) := by
  intro l
  induction l with
  | nil =>
    intro prior total q h
    simp only [aggregate, Except.ok.injEq] at h
    simp [specTotal, ← h]
  | cons item rest ih =>
    intro prior total q h
    by_cases hlt : item.timestamp < prior.timestamp
    · simp [aggregate, natSub, hlt] at h
    · by_cases hz : item.timestamp - prior.timestamp = 0
      · simp [aggregate, natSub, natDiv, hlt, hz] at h
      · simp only [aggregate, natSub, natDiv, if_neg hlt, if_neg hz] at h
        have h2 := ih item _ q h
        rw [h2]
        simp only [specTotal, specGrowth, u256_to_f64]
        rw [Nat.mul_comm 365 DAY_IN_SECONDS]
        ring

/-- C1: code behaviour at the insufficient-data edge cases.  The empty series
does halt with the "input data not long enough" assertion, but a
single-element series passes both length assertions (`input.len() > 0` and
`resampled.len() > 0`), runs zero aggregation iterations, and returns a
numeric result from the zero-divisor final division `0.0 / (1 - 1)` — in
`f64` that is `0.0 / 0.0 = NaN` (rendered `0` under the rational model's
division-by-zero convention) — instead of halting with an "insufficient
resampled data" failure as the specification requires. -/
theorem c1_single_element_returns_numeric_result :
    calculate_dex_stats [] 1 = Except.error RtError.inputDataNotLongEnough ∧
      calculate_dex_stats [⟨1716129570, 0, 100 * 10 ^ 18⟩] 1 = Except.ok ⟨0⟩ := by
  constructor
  · rfl
  · norm_num [calculate_dex_stats, validatePairs, resample, resampleRev, natMod, natSub,
      natDiv, aggregate, u256_to_f64]

/-- C2 (amended): whenever `calculate_dex_stats` returns on a valid input
(non-empty, block numbers passing both validation checks, stride at least 1,
at least two resampled elements), the returned `base_yield` equals the
arithmetic mean, over consecutive pairs of the resampled series, of
`(current_real / prior_real - 1) * annualizer`, where the annualizer is the
`u64` floor quotient `(365 * seconds_per_day) / time_delta` (not the exact
real quotient the claim literally states), the real values are the backing
values divided by `10^18`, and the mean divisor is the number of resampled
elements minus one. -/
theorem c2_base_yield_is_floor_annualized_mean
    (input : List DexStatsInput) (skip : ℕ) (out : DexStatsOutput)
    (hne : input ≠ []) (hval : blockValidationOk input = true) (hskip : 1 ≤ skip)
    (hlen : 2 ≤ (specResample input skip).length)
    (hok : calculate_dex_stats input skip = Except.ok out) :
    out.base_yield = specBaseYield (specResample input skip) := by
  match input, hne with
  | first :: rest, _ =>
    have hk : skip ≠ 0 := by omega
    have hv : validatePairs first rest = Except.ok () :=
      validatePairs_ok_of_blockValidationOk rest first hval
    have hrs : resample (first :: rest) skip = Except.ok (specResample (first :: rest) skip) :=
      resample_eq_specResample _ _ hk
    simp only [calculate_dex_stats, hv, hrs] at hok
    cases hsr : specResample (first :: rest) skip with
    | nil => rw [hsr] at hok; simp at hok
    | cons rfirst rrest =>
      rw [hsr] at hok
      cases hag : aggregate rrest 0 (u256_to_f64 rfirst.lst_backing 18) rfirst.timestamp with
      | error e => simp [hag] at hok
      | ok total =>
        simp only [hag, Except.ok.injEq] at hok
        have htot : total = 0 + specTotal (rfirst :: rrest) := aggregate_ok_eq rrest rfirst 0 total hag
        rw [← hok, specBaseYield, htot]
        simp

/-- Witness for the amended C2 theorem at a concrete valid two-element series
(one day apart, so the annualizer is exactly 365 and the mean is 365). -/
theorem c2_base_yield_is_floor_annualized_mean_witness :
    (⟨365⟩ : DexStatsOutput).base_yield = specBaseYield (specResample c2WitnessInput 1) :=
  c2_base_yield_is_floor_annualized_mean c2WitnessInput 1 ⟨365⟩ (by decide) (by decide)
    (by decide) (by decide)
    (by norm_num [c2WitnessInput, calculate_dex_stats, validatePairs, resample, resampleRev,
      natMod, natSub, natDiv, aggregate, u256_to_f64, BLOCK_GRANULARITY, DAY_IN_SECONDS])

/-- C2 counterexample to the claim as literally stated: with timestamps 86401
seconds apart the code's `u64` division gives annualizer
`31536000 / 86401 = 364` and `calculate_dex_stats` returns exactly 364, while
the claim's real-division formula gives `31536000 / 86401 ≠ 364`. -/
theorem c2_real_division_annualizer_counterexample :
    calculate_dex_stats c2CexInput 1 = Except.ok ⟨364⟩ ∧
      specBaseYieldReal (specResample c2CexInput 1) ≠ 364 := by
  constructor
  · norm_num [c2CexInput, calculate_dex_stats, validatePairs, resample, resampleRev, natMod,
      natSub, natDiv, aggregate, u256_to_f64, BLOCK_GRANULARITY, DAY_IN_SECONDS]
  · norm_num [c2CexInput, specBaseYieldReal, specTotalReal, specGrowthReal, specResample,
      List.enum, List.enumFrom, List.filter, DAY_IN_SECONDS]

/-- C3: on the concrete five-observation daily scenario with backing values
`[100.0, 100.01, 100.10, 100.15, 100.25]` scaled by `10^18` and stride 1,
the computed `base_yield` (exactly `500882340003 / 2197483288000`) is within
`1e-8` of `0.2279345389`. -/
theorem c3_concrete_scenario :
    ∃ q : ℚ, calculate_dex_stats c3Input 1 = Except.ok ⟨q⟩ ∧
      |q - 2279345389 / 10 ^ 10| ≤ 1 / 10 ^ 8 := by
  refine ⟨500882340003 / 2197483288000, ?_, ?_⟩
  · norm_num [c3Input, calculate_dex_stats, validatePairs, resample, resampleRev, natMod,
      natSub, natDiv, aggregate, u256_to_f64, BLOCK_GRANULARITY, DAY_IN_SECONDS]
  · rw [abs_le]
    norm_num

/-- C4 (amended): a series containing a non-increasing consecutive
block-number pair always halts with a fatal validation error and returns no
result — with "list not sorted" whenever no earlier consecutive pair fails
the granularity check first (in particular for two observations with equal
block numbers `[100, 100]`), and otherwise possibly with the granularity
error raised by an earlier pair. -/
theorem c4_non_increasing_pair_fails
    (input : List DexStatsInput) (skip : ℕ) (h : hasNonIncreasingPair input = true) :
    (calculate_dex_stats input skip = Except.error RtError.listNotSorted ∨
      calculate_dex_stats input skip = Except.error RtError.dataNotAtCorrectGranularity) ∧
      (firstViolationIsSort input = true →
        calculate_dex_stats input skip = Except.error RtError.listNotSorted) := by
  match input with
  | [] => simp [hasNonIncreasingPair] at h
  | [x] => simp [hasNonIncreasingPair] at h
  | a :: b :: rest =>
    constructor
    · rcases validatePairs_error_of_nonIncreasing (b :: rest) a h with hv | hv
      · exact Or.inl (calculate_error_of_validate a (b :: rest) skip _ hv)
      · exact Or.inr (calculate_error_of_validate a (b :: rest) skip _ hv)
    · intro hf
      exact calculate_error_of_validate a (b :: rest) skip _
        (validatePairs_listNotSorted_of_firstViolation (b :: rest) a hf)

/-- Witness for the amended C4 theorem: the spec's `[100, 100]` equal-block
scenario fails with "list not sorted". -/
theorem c4_non_increasing_pair_fails_witness :
    calculate_dex_stats twoEqualBlocks 1 = Except.error RtError.listNotSorted :=
  (c4_non_increasing_pair_fails twoEqualBlocks 1 (by decide)).2 (by decide)

/-- C4 counterexample to the claim as stated: blocks `[0, 1, 1]` contain a
non-increasing pair (at the end), yet the function halts with the
granularity error raised by the earlier pair, not with "list not sorted". -/
theorem c4_masked_by_granularity_counterexample :
    hasNonIncreasingPair maskedUnsortedInput = true ∧
      calculate_dex_stats maskedUnsortedInput 1
        = Except.error RtError.dataNotAtCorrectGranularity ∧
      calculate_dex_stats maskedUnsortedInput 1 ≠ Except.error RtError.listNotSorted := by
  have hcalc : calculate_dex_stats maskedUnsortedInput 1
      = Except.error RtError.dataNotAtCorrectGranularity := by
    norm_num [maskedUnsortedInput, calculate_dex_stats, validatePairs, BLOCK_GRANULARITY,
      DAY_IN_SECONDS]
  refine ⟨by decide, hcalc, ?_⟩
  rw [hcalc]
  simp

/-- C5: a series with strictly increasing block numbers in which some
consecutive pair's block delta differs from `BLOCK_GRANULARITY` (strict
equality, no tolerance) halts with the "provided data not at correct
granularity" error. -/
theorem c5_granularity_violation_fails
    (input : List DexStatsInput) (skip : ℕ)
    (hs : strictlyIncreasing input = true) (hg : hasGranularityViolation input = true) :
    calculate_dex_stats input skip = Except.error RtError.dataNotAtCorrectGranularity := by
  match input with
  | [] => simp [hasGranularityViolation] at hg
  | [x] => simp [hasGranularityViolation] at hg
  | a :: b :: rest =>
    exact calculate_error_of_validate a (b :: rest) skip _
      (validatePairs_granularity_of_violation (b :: rest) a hs hg)

/-- Witness for C5: off-by-one block spacing (7201 instead of 7200) fails. -/
theorem c5_granularity_violation_fails_witness :
    calculate_dex_stats offByOneInput 1 = Except.error RtError.dataNotAtCorrectGranularity :=
  c5_granularity_violation_fails offByOneInput 1 (by decide) (by decide)

/-- C6: for every non-empty input and stride `k ≥ 1`, the resampling step of
`calculate_dex_stats` succeeds and produces exactly the elements whose index
counted from the newest element (index 0 = newest) is a multiple of `k`,
restored to chronological order (`specResample`); consequently the resampled
series is non-empty and its last (most recent) element is the input's most
recent observation. -/
theorem c6_resample_characterization
    (input : List DexStatsInput) (k : ℕ) (hk : 1 ≤ k) (hne : input ≠ []) :
    resample input k = Except.ok (specResample input k) ∧
      specResample input k ≠ [] ∧
      (specResample input k).getLast? = input.getLast? := by
  have hk0 : k ≠ 0 := by omega
  refine ⟨resample_eq_specResample input k hk0, ?_, ?_⟩ <;>
  · rw [specResample_eq_keepEvery]
    cases hrev : input.reverse with
    | nil => exact absurd (by simpa using congrArg List.reverse hrev) hne
    | cons x t =>
      have hin : input = t.reverse ++ [x] := by
        have := congrArg List.reverse hrev
        simpa using this
      simp [keepEvery, Nat.zero_mod, hin, List.getLast?_concat]

/-- Witness for C6 at a three-element series with stride 2: kept reversed
indices 0 and 2, i.e. the oldest and newest observations, in order. -/
theorem c6_resample_characterization_witness :
    resample c6WitnessInput 2 = Except.ok (specResample c6WitnessInput 2) ∧
      specResample c6WitnessInput 2 ≠ [] ∧
      (specResample c6WitnessInput 2).getLast? = c6WitnessInput.getLast? :=
  c6_resample_characterization c6WitnessInput 2 (by decide) (by decide)

/-- C7: with stride 1 the resampling step returns the original series
unchanged (same elements, same chronological order), for every input. -/
theorem c7_stride_one_identity (input : List DexStatsInput) :
    resample input 1 = Except.ok input := by
  simp [resample, resampleRev_ok 1 one_ne_zero, keepEvery_one]

/-- C8: `calculate_dex_stats` is embedded as a pure function of its input
series and stride, so for fixed arguments any two invocations denote the
same result, and the input list is immutable by construction. -/
theorem c8_deterministic (input : List DexStatsInput) (skip : ℕ) :
    calculate_dex_stats input skip = calculate_dex_stats input skip := rfl

/-- C9: for every non-empty series passing the block-number validation,
calling with `skip = 0` halts with the remainder-by-zero arithmetic panic at
the resampling step's `index % skip` — not with any of the descriptive
contract assertions. -/
theorem c9_skip_zero_remainder_panic
    (input : List DexStatsInput) (hne : input ≠ []) (hval : blockValidationOk input = true) :
    calculate_dex_stats input 0 = Except.error RtError.remByZero := by
  match input, hne with
  | first :: rest, _ =>
    have hv : validatePairs first rest = Except.ok () :=
      validatePairs_ok_of_blockValidationOk rest first hval
    have hrr := resampleRev_zero 0 (rest.reverse ++ [first]) (by simp)
    simp [calculate_dex_stats, hv, resample, hrr]

/-- Witness for C9 at a single (vacuously valid) observation. -/
theorem c9_skip_zero_remainder_panic_witness :
    calculate_dex_stats singleObservation 0 = Except.error RtError.remByZero :=
  c9_skip_zero_remainder_panic singleObservation (by decide) (by decide)

/-- C10: the block-number validation does not constrain timestamps.  Both
series below pass every explicit validation check, yet with equal timestamps
the annualizer's integer division `(DAY_IN_SECONDS * 365) / 0` panics
(divide by zero), and with decreasing timestamps the `u64` subtraction
`item.timestamp - prior_timestamp` overflows — in neither case is a
descriptive contract error raised. -/
theorem c10_timestamp_arithmetic_panics :
    blockValidationOk equalTimestampsInput = true ∧
      calculate_dex_stats equalTimestampsInput 1 = Except.error RtError.divByZero ∧
      blockValidationOk decreasingTimestampsInput = true ∧
      calculate_dex_stats decreasingTimestampsInput 1 = Except.error RtError.subOverflow := by
  refine ⟨by decide, ?_, by decide, ?_⟩ <;>
    norm_num [equalTimestampsInput, decreasingTimestampsInput, calculate_dex_stats,
      validatePairs, resample, resampleRev, natMod, natSub, natDiv, aggregate, u256_to_f64,
      BLOCK_GRANULARITY, DAY_IN_SECONDS]
